import Mathlib

/-!
Verification of the points-and-redemption core of the AR city backend.

The embedding below translates, from the JavaScript source:
  - the check-in handler        (src/src/routes/checkins.js, POST /api/checkins),
  - the place-redemption handler (same file, POST /api/places/:id/redeem),
  - the reward-redemption handler (rewards router, POST /api/rewards/:id/redeem),
together with the Mongo-backed data model (User, Place, Reward, Checkin,
RewardHistory collections).

Modelling conventions:
  - Document ids are natural numbers; the keyed collections become functions
    from ids to optional documents; the append-only Checkin and RewardHistory
    collections become lists.
  - Timestamps are milliseconds as naturals.  The handler computes the
    current calendar day window with setHours(0,0,0,0), which we render as
    division by the number of milliseconds in a day.
  - The haversine distance (calculateDistance, a float computation over
    trigonometric functions) is kept abstract: the check-in handler receives
    the already-computed distance as a rational parameter d, and every claim
    about the handler quantifies over d.  Math.round becomes the rational
    round (both round half toward positive infinity).
  - JavaScript string interpolation becomes explicit string append.
-/

namespace ARBackend

/-- Snapshot pushed onto user.rewards on reward redemption
(rewards router, redeem handler). -/
structure RewardSnapshot where
  name : String
  shortDescription : String
  pointsCost : Int
  redeemedAt : Nat
deriving DecidableEq, Repr

/-- The parts of the User document the core touches: rewardPoints.total and
the rewards array (models/User schema). -/
structure UserDoc where
  total : Int
  rewards : List RewardSnapshot
deriving DecidableEq, Repr

/-- Place.redemption subdocument: eligible flag plus pointsCost
(models/Place schema; pointsCost has schema default 0 and min 0, and the
handler reads it as redemption.pointsCost or 0, so we keep it optional). -/
structure RedemptionInfo where
  eligible : Bool
  pointsCost : Option Int
deriving DecidableEq, Repr

/-- The parts of the Place document the core touches. -/
structure PlaceDoc where
  name : String
  redemption : Option RedemptionInfo
deriving DecidableEq, Repr

/-- The parts of the Reward document the redemption handler touches. -/
structure RewardDoc where
  name : String
  shortDescription : String
  rtype : String
  pointsCost : Int
  isActive : Bool
  validUntil : Option Nat
deriving DecidableEq, Repr

/-- A Checkin document: user, place, timestamp (coordinates are not read
back by the core, so they are omitted). -/
structure CheckinRec where
  userId : Nat
  placeId : Nat
  timestamp : Nat
deriving DecidableEq, Repr

/-- A RewardHistory document: the ledger entry with its signed amount. -/
structure LedgerEntry where
  userId : Nat
  amount : Int
  reason : String
  timestamp : Nat
deriving DecidableEq, Repr

/-- The backing store: keyed users, places and rewards plus the append-only
checkins and reward-history (ledger) collections. -/
structure Store where
  users : Nat → Option UserDoc
  places : Nat → Option PlaceDoc
  rewards : Nat → Option RewardDoc
  checkins : List CheckinRec
  ledger : List LedgerEntry

/-- Replace one user document, as user.save does. -/
def Store.setUser (st : Store) (uid : Nat) (u : UserDoc) : Store :=
  { st with users := fun i => if i = uid then some u else st.users i }

/-- Milliseconds in a day; dayOf t is the calendar day of timestamp t, the
window [today, tomorrow) produced by setHours(0,0,0,0) and setDate(+1). -/
def dayOf (t : Nat) : Nat := t / 86400000

/-- Checkin.findOne filter of the check-in handler: an accepted check-in by
this user at this place whose timestamp falls in the current day window. -/
def sameDayCheckinExists (st : Store) (uid pid : Nat) (now : Nat) : Bool :=
  st.checkins.any fun c =>
    c.userId == uid && c.placeId == pid && dayOf c.timestamp == dayOf now

/-- JavaScript Math.round applied to the computed distance: the floor of
d + 1/2 (both round halves toward positive infinity), computed on the
numerator and positive denominator with floor division:
d + 1/2 = (2 num + den) / (2 den). -/
def jsRound (d : ℚ) : ℤ := (2 * d.num + (d.den : ℤ)).fdiv (2 * (d.den : ℤ))

/-- Message of the too-far branch of the check-in handler. -/
def tooFarMsg (d : ℚ) : String :=
  "Too far from place. You are " ++ toString (jsRound d) ++
    "m away. Must be within 20 meters."

/-- Message of the too-close branch of the check-in handler. -/
def tooCloseMsg (d : ℚ) : String :=
  "Too close to place. You are " ++ toString (jsRound d) ++
    "m away. Must be at least 10 meters away."

/-- Message of the insufficient-points branch of the reward redemption
handler; it interpolates the required cost and the available balance. -/
def insufficientMsg (need hav : Int) : String :=
  "Insufficient points. You need " ++ toString need ++
    " points but have " ++ toString hav

/-- Reason string of the ledger entry written by the check-in handler. -/
def checkinReason (placeName : String) : String :=
  "Check-in at " ++ placeName

/-- Reason string of the ledger entry written by the place redemption. -/
def placeRedeemReason (placeName : String) : String :=
  "Redeemed at " ++ placeName

/-- Reason string of the ledger entry written by the reward redemption. -/
def rewardRedeemReason (rewardName : String) : String :=
  "Redeemed reward: " ++ rewardName

/-- HTTP outcome of the check-in handler. -/
inductive CheckinResp where
  | notFound (msg : String)
  | badRequest (msg : String)
  | conflict (msg : String)
  | serverError
  | created (awarded total : Int) (distRounded : Int)
deriving DecidableEq, Repr

/-- HTTP status code of a check-in response. -/
def CheckinResp.status : CheckinResp → Nat
  | .notFound _ => 404
  | .badRequest _ => 400
  | .conflict _ => 409
  | .serverError => 500
  | .created _ _ _ => 201

/-- Whether the check-in was accepted (HTTP 201). -/
def CheckinResp.isCreated : CheckinResp → Bool
  | .created _ _ _ => true
  | _ => false

/-- HTTP outcome of the reward redemption handler. -/
inductive RedeemResp where
  | notFound (msg : String)
  | badRequest (msg : String)
  | serverError
  | ok (remainingPoints : Int)
deriving DecidableEq, Repr

/-- HTTP outcome of the place redemption handler. -/
inductive PlaceRedeemResp where
  | notFound (msg : String)
  | badRequest (msg : String)
  | serverError
  | ok (pointsAwarded totalPoints : Int)
deriving DecidableEq, Repr

/-- Translation of the POST /api/checkins handler (src/src/routes/checkins.js).
The haversine distance computed from the claimed and the stored coordinates
is passed in as d; now is the server clock in milliseconds.  Branches in
source order: place lookup (404), distance greater than 20 (400), distance
less than 10 (400), duplicate same-day check-in (409); then Checkin.create,
the +10 update of rewardPoints.total via user.save, and the RewardHistory
entry.  When User.findById returns null the handler has already created the
Checkin document and then throws, which the catch turns into a 500. -/
def checkinPost (st : Store) (uid pid : Nat) (d : ℚ) (now : Nat) :
    Store × CheckinResp :=
  match st.places pid with
  | none => (st, .notFound "Place not found")
  | some place =>
    if 20 < d then (st, .badRequest (tooFarMsg d))
    else if d < 10 then (st, .badRequest (tooCloseMsg d))
    else if sameDayCheckinExists st uid pid now then
      (st, .conflict "Already checked in at this place today")
    else
      let stC : Store := { st with checkins := st.checkins ++ [⟨uid, pid, now⟩] }
      match st.users uid with
      | none => (stC, .serverError)
      | some u =>
        let u' : UserDoc := { u with total := u.total + 10 }
        let entry : LedgerEntry := ⟨uid, 10, checkinReason place.name, now⟩
        ({ stC.setUser uid u' with ledger := st.ledger ++ [entry] },
          .created 10 u'.total (jsRound d))

/-- The expiry test of the reward redemption handler: the reward has a
validUntil and the current time is past it. -/
def rewardExpired (r : RewardDoc) (now : Nat) : Bool :=
  match r.validUntil with
  | none => false
  | some t => t < now

/-- Translation of the POST /api/rewards/:id/redeem handler (rewards
router).  Branches in source order: reward lookup (404), isActive (400),
expiry (400), user lookup (404), balance against pointsCost (400 with a
message carrying both amounts); then the debit of rewardPoints.total, the
push of the redemption snapshot, user.save, and the negative RewardHistory
entry. -/
def redeemRewardPost (st : Store) (uid rid : Nat) (now : Nat) :
    Store × RedeemResp :=
  match st.rewards rid with
  | none => (st, .notFound "Reward not found")
  | some reward =>
    if !reward.isActive then (st, .badRequest "Reward is not available")
    else if rewardExpired reward now then (st, .badRequest "Reward has expired")
    else
      match st.users uid with
      | none => (st, .notFound "User not found")
      | some user =>
        if user.total < reward.pointsCost then
          (st, .badRequest (insufficientMsg reward.pointsCost user.total))
        else
          let user' : UserDoc :=
            { user with
              total := user.total - reward.pointsCost
              rewards := user.rewards ++
                [⟨reward.name, reward.shortDescription, reward.pointsCost, now⟩] }
          let entry : LedgerEntry :=
            ⟨uid, -reward.pointsCost, rewardRedeemReason reward.name, now⟩
          ({ st.setUser uid user' with ledger := st.ledger ++ [entry] },
            .ok user'.total)

/-- Translation of the POST /api/places/:id/redeem handler
(src/src/routes/checkins.js, places router part).  Branches in source
order: place lookup (404), the combined check that redemption is present
and eligible (400), user lookup (404); then pointsAwarded is
redemption.pointsCost or 0, credited to rewardPoints.total via user.save,
and a RewardHistory entry with that amount is appended. -/
def redeemPlacePost (st : Store) (uid pid : Nat) (now : Nat) :
    Store × PlaceRedeemResp :=
  match st.places pid with
  | none => (st, .notFound "Place not found")
  | some place =>
    match place.redemption with
    | none => (st, .badRequest "Place not eligible for redemption")
    | some red =>
      if !red.eligible then (st, .badRequest "Place not eligible for redemption")
      else
        let pointsAwarded : Int := red.pointsCost.getD 0
        match st.users uid with
        | none => (st, .notFound "User not found")
        | some user =>
          let user' : UserDoc := { user with total := user.total + pointsAwarded }
          let entry : LedgerEntry :=
            ⟨uid, pointsAwarded, placeRedeemReason place.name, now⟩
          ({ st.setUser uid user' with ledger := st.ledger ++ [entry] },
            .ok pointsAwarded user'.total)

/-- One completed core operation. -/
inductive Op where
  | checkin (uid pid : Nat) (d : ℚ) (now : Nat)
  | redeemReward (uid rid : Nat) (now : Nat)
  | redeemPlace (uid pid : Nat) (now : Nat)

/-- Apply one core operation to the store, keeping its state effect. -/
def applyOp (st : Store) : Op → Store
  | .checkin uid pid d now => (checkinPost st uid pid d now).1
  | .redeemReward uid rid now => (redeemRewardPost st uid rid now).1
  | .redeemPlace uid pid now => (redeemPlacePost st uid pid now).1

/-- Run a sequence of completed core operations. -/
def runOps (st : Store) (ops : List Op) : Store := ops.foldl applyOp st

/-- Ledger entries belonging to one user. -/
def ledgerFor (st : Store) (uid : Nat) : List LedgerEntry :=
  st.ledger.filter fun e => e.userId == uid

/-- Checkin documents belonging to one user. -/
def checkinsFor (st : Store) (uid : Nat) : List CheckinRec :=
  st.checkins.filter fun c => c.userId == uid

/-- Sum of the signed amounts of the ledger entries of one user. -/
def ledgerSum (st : Store) (uid : Nat) : Int :=
  ((ledgerFor st uid).map LedgerEntry.amount).sum

/-- One check-in request: the target place, the computed haversine distance
of the claimed coordinates from the place, and the request time. -/
structure CheckinReq where
  pid : Nat
  d : ℚ
  now : Nat
deriving DecidableEq, Repr

/-- State effect of one check-in request by one user. -/
def checkinStep (uid : Nat) (st : Store) (r : CheckinReq) : Store :=
  (checkinPost st uid r.pid r.d r.now).1

/-- Run a sequence of check-in requests by one user. -/
def runCheckins (uid : Nat) (st : Store) (reqs : List CheckinReq) : Store :=
  reqs.foldl (checkinStep uid) st

/-- All requests of the sequence are accepted (answered 201) when run in
order. -/
def allAccepted (uid : Nat) : Store → List CheckinReq → Bool
  | _, [] => true
  | st, r :: rs =>
    ((checkinPost st uid r.pid r.d r.now).2).isCreated &&
      allAccepted uid (checkinStep uid st r) rs

/-- Every stored user has a nonnegative points total (the schema min 0
on rewardPoints.total in the User model). -/
def NonnegUsers (st : Store) : Prop :=
  ∀ i u, st.users i = some u → 0 ≤ u.total

/-- Every stored place redemption cost is nonnegative (the schema min 0
and default 0 on redemption.pointsCost in the Place model). -/
def NonnegPlaceCosts (st : Store) : Prop :=
  ∀ i place red, st.places i = some place → place.redemption = some red →
    0 ≤ red.pointsCost.getD 0

/-- The reconciliation invariant for one user: the sum of the ledger
amounts of the user equals the stored points total of the user. -/
def Reconciled (st : Store) (uid : Nat) : Prop :=
  ∀ u, st.users uid = some u → ledgerSum st uid = u.total

/-- Model of two concurrent executions of the reward redemption handler
for the same user, in the interleaving in which both requests pass
User.findById, reading the same stored balance, before either user.save
writes back.  Each handler checks and computes its write-back document
from its own in-memory snapshot of the user, exactly as the async source
does between its await points; a save writes the whole document.  Returns
whether each request succeeded together with the final store. -/
def racedRedeemBothRead (st : Store) (uid rid1 rid2 : Nat) (now : Nat) :
    Bool × Bool × Store :=
  match st.rewards rid1, st.rewards rid2, st.users uid with
  | some r1, some r2, some u =>
    let ok1 := r1.isActive && !rewardExpired r1 now && !(decide (u.total < r1.pointsCost))
    let ok2 := r2.isActive && !rewardExpired r2 now && !(decide (u.total < r2.pointsCost))
    let st1 :=
      if ok1 then
        { st with
          users := fun i => if i = uid then
              some { total := u.total - r1.pointsCost
                     rewards := u.rewards ++
                       [⟨r1.name, r1.shortDescription, r1.pointsCost, now⟩] }
            else st.users i
          ledger := st.ledger ++
            [⟨uid, -r1.pointsCost, rewardRedeemReason r1.name, now⟩] }
      else st
    let st2 :=
      if ok2 then
        { st1 with
          users := fun i => if i = uid then
              some { total := u.total - r2.pointsCost
                     rewards := u.rewards ++
                       [⟨r2.name, r2.shortDescription, r2.pointsCost, now⟩] }
            else st1.users i
          ledger := st1.ledger ++
            [⟨uid, -r2.pointsCost, rewardRedeemReason r2.name, now⟩] }
      else st1
    (ok1, ok2, st2)
  | _, _, _ => (false, false, st)

/-- Concrete fixture: the fresh user of the instantiations. -/
def demoUser : UserDoc := { total := 0, rewards := [] }

/-- Concrete fixture: a redemption-eligible place costing 5 points. -/
def demoPlace : PlaceDoc :=
  { name := "Cafe", redemption := some { eligible := true, pointsCost := some 5 } }

/-- Concrete fixture: one fresh user and one place, empty collections. -/
def demoStore : Store :=
  { users := fun i => if i = 1 then some demoUser else none
    places := fun i => if i = 1 then some demoPlace else none
    rewards := fun _ => none
    checkins := []
    ledger := [] }

/-- Concrete fixture: demoStore after user 1 already checked in at place 1
at time 0 (the current day). -/
def demoStoreChecked : Store := { demoStore with checkins := [⟨1, 1, 0⟩] }

/-- Concrete fixture: an active 30-point reward with no expiry. -/
def demoReward : RewardDoc :=
  { name := "Coffee", shortDescription := "Free coffee", rtype := "voucher"
    pointsCost := 30, isActive := true, validUntil := none }

/-- Concrete fixture: user 1 holds 20 points, reward 1 costs 30 (the
insufficient-balance example of the specification). -/
def demoStoreLowBalance : Store :=
  { users := fun i => if i = 1 then some { total := 20, rewards := [] } else none
    places := fun _ => none
    rewards := fun i => if i = 1 then some demoReward else none
    checkins := []
    ledger := [] }

/-- Concrete fixture: user 1 holds 50 points, reward 1 costs 30 (the
double-spend scenario). -/
def demoStoreRace : Store :=
  { users := fun i => if i = 1 then some { total := 50, rewards := [] } else none
    places := fun _ => none
    rewards := fun i => if i = 1 then some demoReward else none
    checkins := []
    ledger := [] }

/-- Concrete fixture: user 1 holds 60 points, reward 1 costs 30 (two
successive redemptions both fit). -/
def demoStoreRich : Store :=
  { users := fun i => if i = 1 then some { total := 60, rewards := [] } else none
    places := fun _ => none
    rewards := fun i => if i = 1 then some demoReward else none
    checkins := []
    ledger := [] }

/-- Concrete fixture: place 1 is redemption-eligible with pointsCost 0 and
user 1 holds 7 points. -/
def demoStoreZeroCost : Store :=
  { users := fun i => if i = 1 then some { total := 7, rewards := [] } else none
    places := fun i => if i = 1 then
        some { name := "Plaza"
               redemption := some { eligible := true, pointsCost := some 0 } }
      else none
    rewards := fun _ => none
    checkins := []
    ledger := [] }

/-! Branch characterizations of the check-in handler. -/

theorem checkinPost_place_missing (st : Store) (uid pid : Nat) (d : ℚ) (now : Nat)
    (hp : st.places pid = none) :
    checkinPost st uid pid d now = (st, .notFound "Place not found") := by
  simp [checkinPost, hp]

theorem checkinPost_tooFar (st : Store) (uid pid : Nat) (d : ℚ) (now : Nat)
    (place : PlaceDoc) (hp : st.places pid = some place) (h1 : 20 < d) :
    checkinPost st uid pid d now = (st, .badRequest (tooFarMsg d)) := by
  simp [checkinPost, hp, h1]

theorem checkinPost_tooClose (st : Store) (uid pid : Nat) (d : ℚ) (now : Nat)
    (place : PlaceDoc) (hp : st.places pid = some place) (h1 : ¬ 20 < d)
    (h2 : d < 10) :
    checkinPost st uid pid d now = (st, .badRequest (tooCloseMsg d)) := by
  simp [checkinPost, hp, h1, h2]

theorem checkinPost_conflict (st : Store) (uid pid : Nat) (d : ℚ) (now : Nat)
    (place : PlaceDoc) (hp : st.places pid = some place) (h1 : ¬ 20 < d)
    (h2 : ¬ d < 10) (hex : sameDayCheckinExists st uid pid now = true) :
    checkinPost st uid pid d now =
      (st, .conflict "Already checked in at this place today") := by
  simp [checkinPost, hp, h1, h2, hex]

theorem checkinPost_user_missing (st : Store) (uid pid : Nat) (d : ℚ) (now : Nat)
    (place : PlaceDoc) (hp : st.places pid = some place) (h1 : ¬ 20 < d)
    (h2 : ¬ d < 10) (hex : sameDayCheckinExists st uid pid now = false)
    (hu : st.users uid = none) :
    checkinPost st uid pid d now =
      ({ st with checkins := st.checkins ++ [⟨uid, pid, now⟩] }, .serverError) := by
  simp [checkinPost, hp, h1, h2, hex, hu]

theorem checkinPost_created (st : Store) (uid pid : Nat) (d : ℚ) (now : Nat)
    (place : PlaceDoc) (u : UserDoc) (hp : st.places pid = some place)
    (h1 : ¬ 20 < d) (h2 : ¬ d < 10)
    (hex : sameDayCheckinExists st uid pid now = false)
    (hu : st.users uid = some u) :
    checkinPost st uid pid d now =
      ({ users := fun i => if i = uid then some { u with total := u.total + 10 }
           else st.users i
         places := st.places
         rewards := st.rewards
         checkins := st.checkins ++ [⟨uid, pid, now⟩]
         ledger := st.ledger ++ [⟨uid, 10, checkinReason place.name, now⟩] },
        .created 10 (u.total + 10) (jsRound d)) := by
  simp [checkinPost, hp, h1, h2, hex, hu, Store.setUser]

theorem checkinPost_created_inv (st : Store) (uid pid : Nat) (d : ℚ) (now : Nat)
    (h : ((checkinPost st uid pid d now).2).isCreated = true) :
    ∃ place u, st.places pid = some place ∧ st.users uid = some u ∧
      ¬ 20 < d ∧ ¬ d < 10 ∧ sameDayCheckinExists st uid pid now = false := by
  rcases hp : st.places pid with _ | place
  · rw [checkinPost_place_missing st uid pid d now hp] at h
    simp [CheckinResp.isCreated] at h
  · by_cases h1 : 20 < d
    · rw [checkinPost_tooFar st uid pid d now place hp h1] at h
      simp [CheckinResp.isCreated] at h
    · by_cases h2 : d < 10
      · rw [checkinPost_tooClose st uid pid d now place hp h1 h2] at h
        simp [CheckinResp.isCreated] at h
      · rcases hex : sameDayCheckinExists st uid pid now with _ | _
        · rcases hu : st.users uid with _ | u
          · simp [checkinPost, hp, h1, h2, hex, hu, CheckinResp.isCreated] at h
          · exact ⟨place, u, rfl, rfl, h1, h2, rfl⟩
        · rw [checkinPost_conflict st uid pid d now place hp h1 h2 hex] at h
          simp [CheckinResp.isCreated] at h

/-! Branch characterizations of the reward redemption handler. -/

theorem redeemRewardPost_missing (st : Store) (uid rid : Nat) (now : Nat)
    (hr : st.rewards rid = none) :
    redeemRewardPost st uid rid now = (st, .notFound "Reward not found") := by
  simp [redeemRewardPost, hr]

theorem redeemRewardPost_inactive (st : Store) (uid rid : Nat) (now : Nat)
    (r : RewardDoc) (hr : st.rewards rid = some r) (ha : r.isActive = false) :
    redeemRewardPost st uid rid now = (st, .badRequest "Reward is not available") := by
  simp [redeemRewardPost, hr, ha]

theorem redeemRewardPost_expired (st : Store) (uid rid : Nat) (now : Nat)
    (r : RewardDoc) (hr : st.rewards rid = some r) (ha : r.isActive = true)
    (he : rewardExpired r now = true) :
    redeemRewardPost st uid rid now = (st, .badRequest "Reward has expired") := by
  simp [redeemRewardPost, hr, ha, he]

theorem redeemRewardPost_user_missing (st : Store) (uid rid : Nat) (now : Nat)
    (r : RewardDoc) (hr : st.rewards rid = some r) (ha : r.isActive = true)
    (he : rewardExpired r now = false) (hu : st.users uid = none) :
    redeemRewardPost st uid rid now = (st, .notFound "User not found") := by
  simp [redeemRewardPost, hr, ha, he, hu]

theorem redeemRewardPost_insufficient (st : Store) (uid rid : Nat) (now : Nat)
    (r : RewardDoc) (u : UserDoc) (hr : st.rewards rid = some r)
    (ha : r.isActive = true) (he : rewardExpired r now = false)
    (hu : st.users uid = some u) (hb : u.total < r.pointsCost) :
    redeemRewardPost st uid rid now =
      (st, .badRequest (insufficientMsg r.pointsCost u.total)) := by
  simp [redeemRewardPost, hr, ha, he, hu, hb]

theorem redeemRewardPost_ok (st : Store) (uid rid : Nat) (now : Nat)
    (r : RewardDoc) (u : UserDoc) (hr : st.rewards rid = some r)
    (ha : r.isActive = true) (he : rewardExpired r now = false)
    (hu : st.users uid = some u) (hb : ¬ u.total < r.pointsCost) :
    redeemRewardPost st uid rid now =
      ({ users := fun i => if i = uid then
             some { total := u.total - r.pointsCost
                    rewards := u.rewards ++
                      [⟨r.name, r.shortDescription, r.pointsCost, now⟩] }
           else st.users i
         places := st.places
         rewards := st.rewards
         checkins := st.checkins
         ledger := st.ledger ++
           [⟨uid, -r.pointsCost, rewardRedeemReason r.name, now⟩] },
        .ok (u.total - r.pointsCost)) := by
  simp [redeemRewardPost, hr, ha, he, hu, hb, Store.setUser]

/-! Branch characterizations of the place redemption handler. -/

theorem redeemPlacePost_missing (st : Store) (uid pid : Nat) (now : Nat)
    (hp : st.places pid = none) :
    redeemPlacePost st uid pid now = (st, .notFound "Place not found") := by
  simp [redeemPlacePost, hp]

theorem redeemPlacePost_no_redemption (st : Store) (uid pid : Nat) (now : Nat)
    (place : PlaceDoc) (hp : st.places pid = some place)
    (hr : place.redemption = none) :
    redeemPlacePost st uid pid now =
      (st, .badRequest "Place not eligible for redemption") := by
  simp [redeemPlacePost, hp, hr]

theorem redeemPlacePost_not_eligible (st : Store) (uid pid : Nat) (now : Nat)
    (place : PlaceDoc) (red : RedemptionInfo) (hp : st.places pid = some place)
    (hr : place.redemption = some red) (he : red.eligible = false) :
    redeemPlacePost st uid pid now =
      (st, .badRequest "Place not eligible for redemption") := by
  simp [redeemPlacePost, hp, hr, he]

theorem redeemPlacePost_user_missing (st : Store) (uid pid : Nat) (now : Nat)
    (place : PlaceDoc) (red : RedemptionInfo) (hp : st.places pid = some place)
    (hr : place.redemption = some red) (he : red.eligible = true)
    (hu : st.users uid = none) :
    redeemPlacePost st uid pid now = (st, .notFound "User not found") := by
  simp [redeemPlacePost, hp, hr, he, hu]

theorem redeemPlacePost_ok (st : Store) (uid pid : Nat) (now : Nat)
    (place : PlaceDoc) (red : RedemptionInfo) (u : UserDoc)
    (hp : st.places pid = some place) (hr : place.redemption = some red)
    (he : red.eligible = true) (hu : st.users uid = some u) :
    redeemPlacePost st uid pid now =
      ({ users := fun i => if i = uid then
             some { u with total := u.total + red.pointsCost.getD 0 }
           else st.users i
         places := st.places
         rewards := st.rewards
         checkins := st.checkins
         ledger := st.ledger ++
           [⟨uid, red.pointsCost.getD 0, placeRedeemReason place.name, now⟩] },
        .ok (red.pointsCost.getD 0) (u.total + red.pointsCost.getD 0)) := by
  simp [redeemPlacePost, hp, hr, he, hu, Store.setUser]

/-! Claim C1: the distance acceptance band of the check-in handler. -/

/-- Claim C1 (amended): for a check-in request where the place and the user
exist and no same-day check-in exists, with d the haversine distance of the
claimed coordinates from the place, the check-in is accepted (201) iff
10 <= d <= 20, and is rejected with 400 otherwise; both bounds are closed,
so d = 10.0 exactly and d = 20.0 are accepted while d = 9.9999 and
d = 20.0001 are rejected. -/
theorem c1_checkin_acceptance_band (st : Store) (uid pid : Nat) (d : ℚ)
    (now : Nat) (place : PlaceDoc) (u : UserDoc)
    (hp : st.places pid = some place) (hu : st.users uid = some u)
    (hno : sameDayCheckinExists st uid pid now = false) :
    (((checkinPost st uid pid d now).2).isCreated = true ↔ 10 ≤ d ∧ d ≤ 20) ∧
    (¬ (10 ≤ d ∧ d ≤ 20) → ((checkinPost st uid pid d now).2).status = 400) := by
  by_cases h1 : 20 < d
  · rw [checkinPost_tooFar st uid pid d now place hp h1]
    refine ⟨?_, fun _ => rfl⟩
    simp only [CheckinResp.isCreated]
    constructor
    · intro h; exact absurd h (by simp)
    · intro h; exact absurd h1 (not_lt.mpr h.2)
  · by_cases h2 : d < 10
    · rw [checkinPost_tooClose st uid pid d now place hp h1 h2]
      refine ⟨?_, fun _ => rfl⟩
      simp only [CheckinResp.isCreated]
      constructor
      · intro h; exact absurd h (by simp)
      · intro h; exact absurd h2 (not_lt.mpr h.1)
    · have hd : 10 ≤ d ∧ d ≤ 20 := ⟨le_of_not_lt h2, le_of_not_lt h1⟩
      rw [checkinPost_created st uid pid d now place u hp h1 h2 hno hu]
      exact ⟨by simpa [CheckinResp.isCreated] using hd, fun hcon => absurd hd hcon⟩

/-- Claim C1 witness: the band theorem instantiated on the demo store at
the closed upper boundary distance 20.0; the hypotheses hold by
computation, the instance states that acceptance is equivalent to the band
condition there, and the boundary request is accepted. -/
theorem c1_checkin_acceptance_band_witness :
    (((checkinPost demoStore 1 1 20 0).2).isCreated = true ↔
      10 ≤ (20 : ℚ) ∧ (20 : ℚ) ≤ 20) ∧
    ((checkinPost demoStore 1 1 20 0).2).isCreated = true :=
  ⟨(c1_checkin_acceptance_band demoStore 1 1 20 0 demoPlace demoUser
      rfl rfl rfl).1,
   (c1_checkin_acceptance_band demoStore 1 1 20 0 demoPlace demoUser
      rfl rfl rfl).1.mpr (by norm_num)⟩

/-- Claim C1 counterexample: at distance exactly 10.0 the claim demands a
400 rejection, but on the demo store (place and user exist, no same-day
check-in) the handler answers 201 and awards the points: only strictly
smaller distances are rejected as too close. -/
theorem c1_cex_distance_ten_accepted :
    (checkinPost demoStore 1 1 10 0).2 = .created 10 10 10 ∧
    ((checkinPost demoStore 1 1 10 0).2).status = 201 := by
  exact ⟨by decide, by decide⟩

/-! Claim C2: same-day uniqueness and the Conflict response. -/

/-- Claim C2 (amended): when an accepted check-in by the same user at the
same place already exists in the current calendar day, a second attempt
fails with Conflict 409 provided the distance of the second attempt lies inside
the accepted band; the handler checks distance before uniqueness, so a
second attempt at an out-of-band distance fails with 400 instead. -/
theorem c2_same_day_conflict (st : Store) (uid pid : Nat) (d : ℚ) (now : Nat)
    (place : PlaceDoc) (hp : st.places pid = some place)
    (hex : sameDayCheckinExists st uid pid now = true)
    (h1 : ¬ 20 < d) (h2 : ¬ d < 10) :
    checkinPost st uid pid d now =
      (st, .conflict "Already checked in at this place today") ∧
    ((checkinPost st uid pid d now).2).status = 409 := by
  have h := checkinPost_conflict st uid pid d now place hp h1 h2 hex
  exact ⟨h, by rw [h]; rfl⟩

/-- Claim C2 witness: the amended theorem instantiated on the demo store
with an existing same-day check-in and an in-band distance 15. -/
theorem c2_same_day_conflict_witness :
    checkinPost demoStoreChecked 1 1 15 1000 =
      (demoStoreChecked, .conflict "Already checked in at this place today") ∧
    ((checkinPost demoStoreChecked 1 1 15 1000).2).status = 409 :=
  c2_same_day_conflict demoStoreChecked 1 1 15 1000 demoPlace rfl rfl
    (by norm_num) (by norm_num)

/-- Claim C2 counterexample: user 1 already checked in at place 1 today,
yet a second attempt at distance 25 is answered with the 400 too-far
response rather than the 409 Conflict the claim demands for any distance:
the distance gate runs before the uniqueness check. -/
theorem c2_cex_out_of_band_second_attempt :
    sameDayCheckinExists demoStoreChecked 1 1 1000 = true ∧
    (checkinPost demoStoreChecked 1 1 25 1000).2 = .badRequest (tooFarMsg 25) ∧
    ((checkinPost demoStoreChecked 1 1 25 1000).2).status = 400 := by
  exact ⟨by decide, by decide, by decide⟩

/-! Claim C3: order of the reward redemption preconditions. -/

/-- Claim C3: the reward redemption preconditions are checked in this exact
order with the first failure winning: reward exists (else 404 NotFound),
reward isActive (else 400 BadRequest), reward not expired, meaning no
validUntil or validUntil has not yet passed (else 400 BadRequest), user
exists (else 404 NotFound), balance at least pointsCost (else 400
BadRequest whose message carries both the required pointsCost and the
available balance). -/
theorem c3_redeem_reward_precondition_order (st : Store) (uid rid : Nat)
    (now : Nat) :
    (st.rewards rid = none →
      redeemRewardPost st uid rid now = (st, .notFound "Reward not found")) ∧
    (∀ r, st.rewards rid = some r → r.isActive = false →
      redeemRewardPost st uid rid now =
        (st, .badRequest "Reward is not available")) ∧
    (∀ r, st.rewards rid = some r → r.isActive = true →
      rewardExpired r now = true →
      redeemRewardPost st uid rid now = (st, .badRequest "Reward has expired")) ∧
    (∀ r, st.rewards rid = some r → r.isActive = true →
      rewardExpired r now = false → st.users uid = none →
      redeemRewardPost st uid rid now = (st, .notFound "User not found")) ∧
    (∀ r u, st.rewards rid = some r → r.isActive = true →
      rewardExpired r now = false → st.users uid = some u →
      u.total < r.pointsCost →
      redeemRewardPost st uid rid now =
        (st, .badRequest (insufficientMsg r.pointsCost u.total))) :=
  ⟨fun h => redeemRewardPost_missing st uid rid now h,
   fun r hr ha => redeemRewardPost_inactive st uid rid now r hr ha,
   fun r hr ha he => redeemRewardPost_expired st uid rid now r hr ha he,
   fun r hr ha he hu => redeemRewardPost_user_missing st uid rid now r hr ha he hu,
   fun r u hr ha he hu hb =>
     redeemRewardPost_insufficient st uid rid now r u hr ha he hu hb⟩

/-- Claim C3 witness: the insufficient-balance branch instantiated at the
specification example, balance 20 against cost 30, produces exactly the
message naming both amounts. -/
theorem c3_redeem_reward_precondition_order_witness :
    redeemRewardPost demoStoreLowBalance 1 1 0 =
      (demoStoreLowBalance, .badRequest (insufficientMsg 30 20)) ∧
    insufficientMsg 30 20 = "Insufficient points. You need 30 points but have 20" :=
  ⟨(c3_redeem_reward_precondition_order demoStoreLowBalance 1 1 0).2.2.2.2
      demoReward { total := 20, rewards := [] } rfl rfl rfl rfl (by decide),
   by decide⟩

/-! Claim C7: the place redemption contract. -/

/-- Claim C7 (amended): a place redemption fails 404 when the place is
missing and 400 when its redemption is absent or not eligible; otherwise,
for an existing user, it credits exactly redemption.pointsCost (read as 0
when absent) to the balance and appends exactly one ledger entry naming
the place whose amount is that credit, hence positive exactly when
pointsCost is positive; there is no balance precondition and no per-day
uniqueness, so redeeming the same eligible place again immediately
succeeds and credits the same amount again. -/
theorem c7_place_redeem_contract (st : Store) (uid pid : Nat) (now now2 : Nat) :
    (st.places pid = none →
      redeemPlacePost st uid pid now = (st, .notFound "Place not found")) ∧
    (∀ place, st.places pid = some place → place.redemption = none →
      redeemPlacePost st uid pid now =
        (st, .badRequest "Place not eligible for redemption")) ∧
    (∀ place red, st.places pid = some place → place.redemption = some red →
      red.eligible = false →
      redeemPlacePost st uid pid now =
        (st, .badRequest "Place not eligible for redemption")) ∧
    (∀ place red u, st.places pid = some place → place.redemption = some red →
      red.eligible = true → st.users uid = some u →
      (redeemPlacePost st uid pid now).2 =
        .ok (red.pointsCost.getD 0) (u.total + red.pointsCost.getD 0) ∧
      (redeemPlacePost st uid pid now).1.users uid =
        some { u with total := u.total + red.pointsCost.getD 0 } ∧
      (redeemPlacePost st uid pid now).1.ledger = st.ledger ++
        [⟨uid, red.pointsCost.getD 0, placeRedeemReason place.name, now⟩] ∧
      (redeemPlacePost (redeemPlacePost st uid pid now).1 uid pid now2).2 =
        .ok (red.pointsCost.getD 0)
          (u.total + red.pointsCost.getD 0 + red.pointsCost.getD 0)) := by
  refine ⟨fun h => redeemPlacePost_missing st uid pid now h,
    fun place hp hr => redeemPlacePost_no_redemption st uid pid now place hp hr,
    fun place red hp hr he =>
      redeemPlacePost_not_eligible st uid pid now place red hp hr he,
    fun place red u hp hr he hu => ?_⟩
  have h1 := redeemPlacePost_ok st uid pid now place red u hp hr he hu
  have hp2 : (redeemPlacePost st uid pid now).1.places pid = some place := by
    rw [h1]; exact hp
  have hu2 : (redeemPlacePost st uid pid now).1.users uid =
      some { u with total := u.total + red.pointsCost.getD 0 } := by
    rw [h1]; simp
  have h2 := redeemPlacePost_ok (redeemPlacePost st uid pid now).1 uid pid now2
    place red { u with total := u.total + red.pointsCost.getD 0 } hp2 hr he hu2
  exact ⟨by rw [h1], hu2, by rw [h1], by rw [h2]⟩

/-- Claim C7 witness: both branches of the contract at the demo store:
the first redemption of the eligible 5-point place answers ok with 5
awarded, and the immediate repetition credits 5 again. -/
theorem c7_place_redeem_contract_witness :
    (redeemPlacePost demoStore 1 1 0).2 = .ok 5 5 ∧
    (redeemPlacePost (redeemPlacePost demoStore 1 1 0).1 1 1 0).2 = .ok 5 10 := by
  have h := (c7_place_redeem_contract demoStore 1 1 0 0).2.2.2 demoPlace
    { eligible := true, pointsCost := some 5 } demoUser rfl rfl rfl rfl
  exact ⟨h.1, h.2.2.2⟩

/-- Claim C7 counterexample: at an eligible place with pointsCost 0 the
redemption succeeds but the single appended ledger entry has amount 0,
which is not positive, refuting the claim that every successful place
redemption appends a positive ledger entry. -/
theorem c7_cex_zero_amount_entry :
    (redeemPlacePost demoStoreZeroCost 1 1 0).2 = .ok 0 7 ∧
    (redeemPlacePost demoStoreZeroCost 1 1 0).1.ledger =
      [⟨1, 0, "Redeemed at Plaza", 0⟩] ∧
    ¬ (0 : Int) < 0 := by
  exact ⟨by decide, by decide, by decide⟩

/-! Claim C10: place redemption with absent or zero pointsCost. -/

/-- Claim C10: a place redemption at an existing place whose redemption is
eligible but whose pointsCost is absent or 0 still succeeds: it returns
pointsAwarded 0 with the unchanged total, leaves the balance of the user
unchanged, and appends one ledger entry with amount 0 naming the place. -/
theorem c10_place_redeem_zero (st : Store) (uid pid : Nat) (now : Nat)
    (place : PlaceDoc) (red : RedemptionInfo) (u : UserDoc)
    (hp : st.places pid = some place) (hr : place.redemption = some red)
    (he : red.eligible = true) (hc : red.pointsCost.getD 0 = 0)
    (hu : st.users uid = some u) :
    (redeemPlacePost st uid pid now).2 = .ok 0 u.total ∧
    (redeemPlacePost st uid pid now).1.users uid = some u ∧
    (redeemPlacePost st uid pid now).1.ledger =
      st.ledger ++ [⟨uid, 0, placeRedeemReason place.name, now⟩] := by
  have h := redeemPlacePost_ok st uid pid now place red u hp hr he hu
  rw [hc] at h
  rw [h]
  refine ⟨by simp, ?_, rfl⟩
  show (if uid = uid then some { u with total := u.total + 0 } else st.users uid) =
    some u
  simp

/-- Claim C10 witness: the zero-cost theorem instantiated at the Plaza
fixture, whose eligible redemption costs 0 and whose user holds 7 points:
the response awards 0 and the balance stays 7. -/
theorem c10_place_redeem_zero_witness :
    (redeemPlacePost demoStoreZeroCost 1 1 0).2 = .ok 0 7 ∧
    (redeemPlacePost demoStoreZeroCost 1 1 0).1.users 1 =
      some { total := 7, rewards := [] } :=
  ⟨(c10_place_redeem_zero demoStoreZeroCost 1 1 0
      { name := "Plaza", redemption := some { eligible := true, pointsCost := some 0 } }
      { eligible := true, pointsCost := some 0 }
      { total := 7, rewards := [] } rfl rfl rfl rfl rfl).1,
   (c10_place_redeem_zero demoStoreZeroCost 1 1 0
      { name := "Plaza", redemption := some { eligible := true, pointsCost := some 0 } }
      { eligible := true, pointsCost := some 0 }
      { total := 7, rewards := [] } rfl rfl rfl rfl rfl).2.1⟩

/-! Claim C5: nonnegativity of the points total. -/

/-- Claim C5: the points total of a user never goes negative: the check-in
credit, the place-redemption credit (under the schema nonnegativity of
redemption.pointsCost) and the reward-redemption debit each preserve
nonnegativity of every stored total, and a reward redemption attempted
from a balance below the pointsCost of the reward leaves the store unchanged,
so no operation can drive a balance below zero. -/
theorem c5_total_nonneg (st : Store) (uid pid rid : Nat) (d : ℚ) (now : Nat) :
    (NonnegUsers st → NonnegUsers (checkinPost st uid pid d now).1) ∧
    (NonnegUsers st → NonnegPlaceCosts st →
      NonnegUsers (redeemPlacePost st uid pid now).1) ∧
    (NonnegUsers st → NonnegUsers (redeemRewardPost st uid rid now).1) ∧
    (∀ r u, st.rewards rid = some r → st.users uid = some u →
      u.total < r.pointsCost → (redeemRewardPost st uid rid now).1 = st) := by
  refine ⟨?_, ?_, ?_, ?_⟩
  · intro hn
    rcases hp : st.places pid with _ | place
    · rw [checkinPost_place_missing st uid pid d now hp]; exact hn
    · by_cases h1 : 20 < d
      · rw [checkinPost_tooFar st uid pid d now place hp h1]; exact hn
      · by_cases h2 : d < 10
        · rw [checkinPost_tooClose st uid pid d now place hp h1 h2]; exact hn
        · rcases hex : sameDayCheckinExists st uid pid now with _ | _
          · rcases hu : st.users uid with _ | u
            · rw [checkinPost_user_missing st uid pid d now place hp h1 h2 hex hu]
              exact hn
            · rw [checkinPost_created st uid pid d now place u hp h1 h2 hex hu]
              intro i u' h
              dsimp only at h
              by_cases hi : i = uid
              · subst hi
                rw [if_pos rfl] at h
                injection h with h
                subst h
                have := hn i u hu
                show (0:Int) ≤ u.total + 10
                linarith
              · rw [if_neg hi] at h
                exact hn i u' h
          · rw [checkinPost_conflict st uid pid d now place hp h1 h2 hex]
            exact hn
  · intro hn hc
    rcases hp : st.places pid with _ | place
    · rw [redeemPlacePost_missing st uid pid now hp]; exact hn
    · rcases hr : place.redemption with _ | red
      · rw [redeemPlacePost_no_redemption st uid pid now place hp hr]; exact hn
      · rcases he : red.eligible with _ | _
        · rw [redeemPlacePost_not_eligible st uid pid now place red hp hr he]
          exact hn
        · rcases hu : st.users uid with _ | u
          · rw [redeemPlacePost_user_missing st uid pid now place red hp hr he hu]
            exact hn
          · rw [redeemPlacePost_ok st uid pid now place red u hp hr he hu]
            intro i u' h
            dsimp only at h
            by_cases hi : i = uid
            · subst hi
              rw [if_pos rfl] at h
              injection h with h
              subst h
              have hn1 := hn i u hu
              have hc1 := hc pid place red hp hr
              show (0:Int) ≤ u.total + red.pointsCost.getD 0
              linarith
            · rw [if_neg hi] at h
              exact hn i u' h
  · intro hn
    rcases hr : st.rewards rid with _ | r
    · rw [redeemRewardPost_missing st uid rid now hr]; exact hn
    · rcases ha : r.isActive with _ | _
      · rw [redeemRewardPost_inactive st uid rid now r hr ha]; exact hn
      · rcases he : rewardExpired r now with _ | _
        · rcases hu : st.users uid with _ | u
          · rw [redeemRewardPost_user_missing st uid rid now r hr ha he hu]
            exact hn
          · by_cases hb : u.total < r.pointsCost
            · rw [redeemRewardPost_insufficient st uid rid now r u hr ha he hu hb]
              exact hn
            · rw [redeemRewardPost_ok st uid rid now r u hr ha he hu hb]
              intro i u' h
              dsimp only at h
              by_cases hi : i = uid
              · subst hi
                rw [if_pos rfl] at h
                injection h with h
                subst h
                show (0:Int) ≤ u.total - r.pointsCost
                omega
              · rw [if_neg hi] at h
                exact hn i u' h
        · rw [redeemRewardPost_expired st uid rid now r hr ha he]; exact hn
  · intro r u hr hu hb
    rcases ha : r.isActive with _ | _
    · rw [redeemRewardPost_inactive st uid rid now r hr ha]
    · rcases he : rewardExpired r now with _ | _
      · rw [redeemRewardPost_insufficient st uid rid now r u hr ha he hu hb]
      · rw [redeemRewardPost_expired st uid rid now r hr ha he]

/-- NonnegUsers holds on the demo store: its only user has total 0. -/
theorem demoStore_nonnegUsers : NonnegUsers demoStore := by
  intro i u h
  dsimp only [demoStore] at h
  by_cases hi : i = 1
  · subst hi
    rw [if_pos rfl] at h
    injection h with h
    subst h
    decide
  · rw [if_neg hi] at h
    exact Option.noConfusion h

/-- NonnegPlaceCosts holds on the demo store: its only place costs 5. -/
theorem demoStore_nonnegCosts : NonnegPlaceCosts demoStore := by
  intro i place red hp hr
  dsimp only [demoStore] at hp
  by_cases hi : i = 1
  · subst hi
    rw [if_pos rfl] at hp
    injection hp with hp
    subst hp
    dsimp only [demoPlace] at hr
    injection hr with hr
    subst hr
    decide
  · rw [if_neg hi] at hp
    exact Option.noConfusion hp

/-- Claim C5 witness: the preservation theorem instantiated on the demo
store for a check-in and for a place redemption. -/
theorem c5_total_nonneg_witness :
    NonnegUsers (checkinPost demoStore 1 1 15 0).1 ∧
    NonnegUsers (redeemPlacePost demoStore 1 1 0).1 :=
  ⟨(c5_total_nonneg demoStore 1 1 1 15 0).1 demoStore_nonnegUsers,
   (c5_total_nonneg demoStore 1 1 1 15 0).2.1 demoStore_nonnegUsers
     demoStore_nonnegCosts⟩

/-! Claim C8: concurrent redemptions and double-spend. -/

/-- Claim C8 (amended): the redemption handler performs an unsynchronized
read-check-write between its await points, so in the interleaving where
both concurrent requests read the balance before either writes back, both
can succeed even when their combined cost exceeds the balance (see the
counterexample); only when the two requests are serialized does
at-most-one-success hold: if the first redemption succeeds and the
remaining balance is below the cost of the second reward, the second request
fails with the insufficient-points response and changes nothing. -/
theorem c8_sequential_no_double_spend (st : Store) (uid rid1 rid2 : Nat)
    (now : Nat) (r1 r2 : RewardDoc) (u : UserDoc)
    (h1 : st.rewards rid1 = some r1) (h2 : st.rewards rid2 = some r2)
    (ha1 : r1.isActive = true) (he1 : rewardExpired r1 now = false)
    (ha2 : r2.isActive = true) (he2 : rewardExpired r2 now = false)
    (hu : st.users uid = some u) (hb : ¬ u.total < r1.pointsCost)
    (hover : u.total - r1.pointsCost < r2.pointsCost) :
    (redeemRewardPost st uid rid1 now).2 = .ok (u.total - r1.pointsCost) ∧
    redeemRewardPost (redeemRewardPost st uid rid1 now).1 uid rid2 now =
      ((redeemRewardPost st uid rid1 now).1,
        .badRequest (insufficientMsg r2.pointsCost (u.total - r1.pointsCost))) := by
  have hok := redeemRewardPost_ok st uid rid1 now r1 u h1 ha1 he1 hu hb
  have hr2 : (redeemRewardPost st uid rid1 now).1.rewards rid2 = some r2 := by
    rw [hok]; exact h2
  have hu2 : (redeemRewardPost st uid rid1 now).1.users uid =
      some { total := u.total - r1.pointsCost
             rewards := u.rewards ++
               [⟨r1.name, r1.shortDescription, r1.pointsCost, now⟩] } := by
    rw [hok]; simp
  exact ⟨by rw [hok],
    redeemRewardPost_insufficient (redeemRewardPost st uid rid1 now).1 uid rid2
      now r2 _ hr2 ha2 he2 hu2 hover⟩

/-- Claim C8 counterexample: two concurrent redemptions of the 30-point
reward against a balance of 50, interleaved so that both handlers read the
stored balance before either saves: both succeed although the second
cost 30 of the second request exceeds the remaining balance 20 left by the first, so
the claimed at-most-one-success fails; the stored balance ends at 20 while
the ledger records a combined debit of 60. -/
theorem c8_cex_double_spend :
    (racedRedeemBothRead demoStoreRace 1 1 1 0).1 = true ∧
    (racedRedeemBothRead demoStoreRace 1 1 1 0).2.1 = true ∧
    (50 : Int) - 30 < 30 ∧
    (racedRedeemBothRead demoStoreRace 1 1 1 0).2.2.users 1 =
      some { total := 20, rewards := [⟨"Coffee", "Free coffee", 30, 0⟩] } ∧
    ledgerSum (racedRedeemBothRead demoStoreRace 1 1 1 0).2.2 1 = -60 := by
  exact ⟨by decide, by decide, by decide, by decide, by decide⟩

/-- Claim C8 witness: the serialized part of the amended theorem at the
concrete scenario of the specification: balance 50, two 30-point
redemptions run one after the other; the second fails naming cost 30 and
remaining balance 20. -/
theorem c8_sequential_no_double_spend_witness :
    (redeemRewardPost demoStoreRace 1 1 0).2 = .ok 20 ∧
    redeemRewardPost (redeemRewardPost demoStoreRace 1 1 0).1 1 1 0 =
      ((redeemRewardPost demoStoreRace 1 1 0).1,
        .badRequest (insufficientMsg 30 20)) :=
  c8_sequential_no_double_spend demoStoreRace 1 1 1 0 demoReward demoReward
    { total := 50, rewards := [] } rfl rfl rfl rfl rfl rfl rfl (by decide)
    (by decide)

/-! Claim C9: reward redemption is not idempotent. -/

/-- Claim C9: reward redemption is not idempotent: when a redemption
succeeds and the remaining balance still covers the pointsCost of the reward,
repeating the identical request succeeds again, debits pointsCost a second
time, appends a second redemption snapshot to the rewards of the user and a
second negative ledger entry. -/
theorem c9_redeem_not_idempotent (st : Store) (uid rid : Nat) (now : Nat)
    (r : RewardDoc) (u : UserDoc)
    (hr : st.rewards rid = some r) (ha : r.isActive = true)
    (he : rewardExpired r now = false) (hu : st.users uid = some u)
    (hb : ¬ u.total < r.pointsCost)
    (hb2 : ¬ u.total - r.pointsCost < r.pointsCost) :
    (redeemRewardPost st uid rid now).2 = .ok (u.total - r.pointsCost) ∧
    (redeemRewardPost (redeemRewardPost st uid rid now).1 uid rid now).2 =
      .ok (u.total - r.pointsCost - r.pointsCost) ∧
    (redeemRewardPost (redeemRewardPost st uid rid now).1 uid rid now).1.users uid =
      some { total := u.total - r.pointsCost - r.pointsCost
             rewards := u.rewards ++
               [⟨r.name, r.shortDescription, r.pointsCost, now⟩,
                ⟨r.name, r.shortDescription, r.pointsCost, now⟩] } ∧
    (redeemRewardPost (redeemRewardPost st uid rid now).1 uid rid now).1.ledger =
      st.ledger ++ [⟨uid, -r.pointsCost, rewardRedeemReason r.name, now⟩,
                    ⟨uid, -r.pointsCost, rewardRedeemReason r.name, now⟩] := by
  have hok := redeemRewardPost_ok st uid rid now r u hr ha he hu hb
  have hr2 : (redeemRewardPost st uid rid now).1.rewards rid = some r := by
    rw [hok]; exact hr
  have hu2 : (redeemRewardPost st uid rid now).1.users uid =
      some { total := u.total - r.pointsCost
             rewards := u.rewards ++
               [⟨r.name, r.shortDescription, r.pointsCost, now⟩] } := by
    rw [hok]; simp
  have hok2 := redeemRewardPost_ok (redeemRewardPost st uid rid now).1 uid rid
    now r _ hr2 ha he hu2 hb2
  refine ⟨by rw [hok], by rw [hok2], ?_, ?_⟩
  · rw [hok2]
    simp
  · rw [hok2, hok]
    simp

/-- Claim C9 witness: the theorem instantiated at a balance of 60 and the
30-point reward: the first call leaves 30, the repetition leaves 0 and the
ledger holds two entries of -30. -/
theorem c9_redeem_not_idempotent_witness :
    (redeemRewardPost demoStoreRich 1 1 0).2 = .ok 30 ∧
    (redeemRewardPost (redeemRewardPost demoStoreRich 1 1 0).1 1 1 0).2 =
      .ok 0 ∧
    (redeemRewardPost (redeemRewardPost demoStoreRich 1 1 0).1 1 1 0).1.users 1 =
      some { total := 0
             rewards := [⟨"Coffee", "Free coffee", 30, 0⟩,
                         ⟨"Coffee", "Free coffee", 30, 0⟩] } ∧
    (redeemRewardPost (redeemRewardPost demoStoreRich 1 1 0).1 1 1 0).1.ledger =
      [⟨1, -30, rewardRedeemReason "Coffee", 0⟩,
       ⟨1, -30, rewardRedeemReason "Coffee", 0⟩] :=
  c9_redeem_not_idempotent demoStoreRich 1 1 0 demoReward
    { total := 60, rewards := [] } rfl rfl rfl rfl (by decide) (by decide)

/-! Ledger-sum bookkeeping used for the reconciliation invariant. -/

theorem ledgerSum_append (st : Store) (f : Nat → Option UserDoc)
    (cs : List CheckinRec) (e : LedgerEntry) (uid : Nat) :
    ledgerSum { users := f, places := st.places, rewards := st.rewards,
                checkins := cs, ledger := st.ledger ++ [e] } uid =
      ledgerSum st uid + (if e.userId = uid then e.amount else 0) := by
  show (((st.ledger ++ [e]).filter fun x => x.userId == uid).map
      LedgerEntry.amount).sum = _
  rw [List.filter_append]
  by_cases hc : e.userId = uid
  · simp [ledgerSum, ledgerFor, hc]
  · simp [ledgerSum, ledgerFor, hc]

theorem reconciled_update (st : Store) (v : Nat) (u0 u1 : UserDoc)
    (e : LedgerEntry) (cs : List CheckinRec) (uid : Nat)
    (hu : st.users v = some u0) (hev : e.userId = v)
    (hd : u1.total = u0.total + e.amount) (h : Reconciled st uid) :
    Reconciled { users := fun i => if i = v then some u1 else st.users i
                 places := st.places, rewards := st.rewards
                 checkins := cs, ledger := st.ledger ++ [e] } uid := by
  intro u hu'
  dsimp only at hu'
  rw [ledgerSum_append st _ cs e uid]
  by_cases hv : uid = v
  · subst hv
    rw [if_pos rfl] at hu'
    injection hu' with hu'
    subst hu'
    rw [if_pos hev, h u0 hu, hd]
  · rw [if_neg hv] at hu'
    have hne : ¬ e.userId = uid := fun hh => hv (by rw [← hh]; exact hev)
    rw [if_neg hne, add_zero]
    exact h u hu'

theorem applyOp_reconciled (st : Store) (uid : Nat) (op : Op)
    (h : Reconciled st uid) : Reconciled (applyOp st op) uid := by
  cases op with
  | checkin v pid d now =>
    show Reconciled (checkinPost st v pid d now).1 uid
    rcases hp : st.places pid with _ | place
    · rw [checkinPost_place_missing st v pid d now hp]; exact h
    · by_cases h1 : 20 < d
      · rw [checkinPost_tooFar st v pid d now place hp h1]; exact h
      · by_cases h2 : d < 10
        · rw [checkinPost_tooClose st v pid d now place hp h1 h2]; exact h
        · rcases hex : sameDayCheckinExists st v pid now with _ | _
          · rcases hu : st.users v with _ | u
            · rw [checkinPost_user_missing st v pid d now place hp h1 h2 hex hu]
              exact h
            · rw [checkinPost_created st v pid d now place u hp h1 h2 hex hu]
              exact reconciled_update st v u { u with total := u.total + 10 }
                ⟨v, 10, checkinReason place.name, now⟩
                (st.checkins ++ [⟨v, pid, now⟩]) uid hu rfl rfl h
          · rw [checkinPost_conflict st v pid d now place hp h1 h2 hex]; exact h
  | redeemReward v rid now =>
    show Reconciled (redeemRewardPost st v rid now).1 uid
    rcases hr : st.rewards rid with _ | r
    · rw [redeemRewardPost_missing st v rid now hr]; exact h
    · rcases ha : r.isActive with _ | _
      · rw [redeemRewardPost_inactive st v rid now r hr ha]; exact h
      · rcases he : rewardExpired r now with _ | _
        · rcases hu : st.users v with _ | u
          · rw [redeemRewardPost_user_missing st v rid now r hr ha he hu]
            exact h
          · by_cases hb : u.total < r.pointsCost
            · rw [redeemRewardPost_insufficient st v rid now r u hr ha he hu hb]
              exact h
            · rw [redeemRewardPost_ok st v rid now r u hr ha he hu hb]
              exact reconciled_update st v u
                { total := u.total - r.pointsCost
                  rewards := u.rewards ++
                    [⟨r.name, r.shortDescription, r.pointsCost, now⟩] }
                ⟨v, -r.pointsCost, rewardRedeemReason r.name, now⟩
                st.checkins uid hu rfl (by ring) h
        · rw [redeemRewardPost_expired st v rid now r hr ha he]; exact h
  | redeemPlace v pid now =>
    show Reconciled (redeemPlacePost st v pid now).1 uid
    rcases hp : st.places pid with _ | place
    · rw [redeemPlacePost_missing st v pid now hp]; exact h
    · rcases hr : place.redemption with _ | red
      · rw [redeemPlacePost_no_redemption st v pid now place hp hr]; exact h
      · rcases he : red.eligible with _ | _
        · rw [redeemPlacePost_not_eligible st v pid now place red hp hr he]
          exact h
        · rcases hu : st.users v with _ | u
          · rw [redeemPlacePost_user_missing st v pid now place red hp hr he hu]
            exact h
          · rw [redeemPlacePost_ok st v pid now place red u hp hr he hu]
            exact reconciled_update st v u
              { u with total := u.total + red.pointsCost.getD 0 }
              ⟨v, red.pointsCost.getD 0, placeRedeemReason place.name, now⟩
              st.checkins uid hu rfl rfl h

theorem runOps_reconciled (uid : Nat) :
    ∀ (ops : List Op) (st : Store), Reconciled st uid →
      Reconciled (runOps st ops) uid
  | [], _, h => h
  | op :: ops, st, h =>
    runOps_reconciled uid ops (applyOp st op) (applyOp_reconciled st uid op h)

/-! Claim C6: the reconciliation invariant. -/

/-- Claim C6: for every user, at every state reachable by a sequence of
completed core operations (check-ins, reward redemptions, place
redemptions) from a store in which that user has balance 0 and an empty
ledger, the sum of the amounts of the ledger entries of that user equals
the current points total of that user. -/
theorem c6_ledger_reconciles (st : Store) (uid : Nat) (ops : List Op)
    (u : UserDoc) (hu : st.users uid = some u) (h0 : u.total = 0)
    (hl : ledgerFor st uid = []) : Reconciled (runOps st ops) uid := by
  have hbase : Reconciled st uid := by
    intro u' hu'
    rw [hu] at hu'
    injection hu' with hu'
    subst hu'
    show ((ledgerFor st uid).map LedgerEntry.amount).sum = u.total
    rw [hl, h0]
    rfl
  exact runOps_reconciled uid ops st hbase

/-- Claim C6 witness: the reconciliation theorem instantiated on the demo
store for an accepted check-in followed by a place redemption. -/
theorem c6_ledger_reconciles_witness :
    Reconciled (runOps demoStore [.checkin 1 1 15 0, .redeemPlace 1 1 0]) 1 :=
  c6_ledger_reconciles demoStore 1 [.checkin 1 1 15 0, .redeemPlace 1 1 0]
    demoUser rfl rfl rfl

/-! The accumulated effect of a run of accepted check-ins. -/

theorem checkinStep_created (uid : Nat) (st : Store) (r : CheckinReq)
    (place : PlaceDoc) (u : UserDoc) (hp : st.places r.pid = some place)
    (h1 : ¬ 20 < r.d) (h2 : ¬ r.d < 10)
    (hex : sameDayCheckinExists st uid r.pid r.now = false)
    (hu : st.users uid = some u) :
    checkinStep uid st r =
      { users := fun i => if i = uid then some { u with total := u.total + 10 }
          else st.users i
        places := st.places
        rewards := st.rewards
        checkins := st.checkins ++ [⟨uid, r.pid, r.now⟩]
        ledger := st.ledger ++
          [⟨uid, 10, checkinReason place.name, r.now⟩] } := by
  unfold checkinStep
  rw [checkinPost_created st uid r.pid r.d r.now place u hp h1 h2 hex hu]

theorem runCheckins_effects (uid : Nat) :
    ∀ (reqs : List CheckinReq) (st : Store) (u : UserDoc),
      st.users uid = some u → allAccepted uid st reqs = true →
      ∃ u' es cs,
        (runCheckins uid st reqs).users uid = some u' ∧
        u'.total = u.total + 10 * reqs.length ∧
        ledgerFor (runCheckins uid st reqs) uid = ledgerFor st uid ++ es ∧
        es.length = reqs.length ∧
        (∀ e ∈ es, e.amount = 10 ∧ ∃ pid place,
          st.places pid = some place ∧ e.reason = checkinReason place.name) ∧
        checkinsFor (runCheckins uid st reqs) uid = checkinsFor st uid ++ cs ∧
        cs.length = reqs.length := by
  intro reqs
  induction reqs with
  | nil =>
    intro st u hu _
    exact ⟨u, [], [], hu, by simp, by simp [runCheckins], rfl, by simp,
      by simp [runCheckins], rfl⟩
  | cons r rs ih =>
    intro st u hu hacc
    have hacc2 : (((checkinPost st uid r.pid r.d r.now).2).isCreated &&
        allAccepted uid (checkinStep uid st r) rs) = true := hacc
    rw [Bool.and_eq_true] at hacc2
    obtain ⟨hc, hrest⟩ := hacc2
    obtain ⟨place, u0, hp, hu0, h1, h2, hex⟩ :=
      checkinPost_created_inv st uid r.pid r.d r.now hc
    rw [hu] at hu0
    injection hu0 with hu0
    subst hu0
    have hstep := checkinStep_created uid st r place u hp h1 h2 hex hu
    have hu1 : (checkinStep uid st r).users uid =
        some { u with total := u.total + 10 } := by
      rw [hstep]; dsimp only; rw [if_pos rfl]
    have hpl : (checkinStep uid st r).places = st.places := by rw [hstep]
    have hled : ledgerFor (checkinStep uid st r) uid =
        ledgerFor st uid ++ [⟨uid, 10, checkinReason place.name, r.now⟩] := by
      rw [ledgerFor, hstep]
      rw [List.filter_append]
      simp [ledgerFor]
    have hchk : checkinsFor (checkinStep uid st r) uid =
        checkinsFor st uid ++ [⟨uid, r.pid, r.now⟩] := by
      rw [checkinsFor, hstep]
      rw [List.filter_append]
      simp [checkinsFor]
    obtain ⟨u', es', cs', hA, hB, hC, hD, hE, hF, hG⟩ :=
      ih (checkinStep uid st r) { u with total := u.total + 10 } hu1 hrest
    have hrun : runCheckins uid st (r :: rs) =
        runCheckins uid (checkinStep uid st r) rs := rfl
    refine ⟨u', ⟨uid, 10, checkinReason place.name, r.now⟩ :: es',
      ⟨uid, r.pid, r.now⟩ :: cs', ?_, ?_, ?_, ?_, ?_, ?_, ?_⟩
    · rw [hrun]; exact hA
    · rw [hB]
      show u.total + 10 + 10 * (rs.length : Int) = u.total + 10 * ((rs.length : Int) + 1)
      ring
    · rw [hrun, hC, hled]
      simp
    · simp [hD]
    · intro e he
      rcases List.mem_cons.mp he with he | he
      · subst he
        exact ⟨rfl, r.pid, place, hp, rfl⟩
      · obtain ⟨ham, pid2, pl2, hpp, hre⟩ := hE e he
        rw [hpl] at hpp
        exact ⟨ham, pid2, pl2, hpp, hre⟩
    · rw [hrun, hF, hchk]
      simp
    · simp [hG]

/-! Claim C4: points accrual from accepted check-ins. -/

/-- Claim C4: every accepted check-in persists exactly one Checkin record,
adds exactly 10 to the points total of the user and appends exactly one ledger
entry with amount 10 whose reason names the place; consequently a user
starting from balance 0 and an empty ledger reaches balance 10*N after N
accepted check-ins and the ledger then holds exactly N entries, all of
amount 10 and each naming a stored place. -/
theorem c4_checkin_points (st : Store) (uid pid : Nat) (d : ℚ) (now : Nat)
    (u : UserDoc) (place : PlaceDoc) (reqs : List CheckinReq) :
    (st.users uid = some u → st.places pid = some place →
      ((checkinPost st uid pid d now).2).isCreated = true →
      (checkinPost st uid pid d now).1.checkins =
        st.checkins ++ [⟨uid, pid, now⟩] ∧
      (checkinPost st uid pid d now).1.ledger =
        st.ledger ++ [⟨uid, 10, checkinReason place.name, now⟩] ∧
      (checkinPost st uid pid d now).1.users uid =
        some { u with total := u.total + 10 } ∧
      (checkinPost st uid pid d now).2 = .created 10 (u.total + 10) (jsRound d)) ∧
    (st.users uid = some u → u.total = 0 → ledgerFor st uid = [] →
      allAccepted uid st reqs = true →
      ∃ u' es, (runCheckins uid st reqs).users uid = some u' ∧
        u'.total = 10 * reqs.length ∧
        ledgerFor (runCheckins uid st reqs) uid = es ∧
        es.length = reqs.length ∧
        ∀ e ∈ es, e.amount = 10 ∧ ∃ pid2 place2,
          st.places pid2 = some place2 ∧
          e.reason = checkinReason place2.name) := by
  constructor
  · intro hu hp hc
    obtain ⟨place', u0, hp', hu0, h1, h2, hex⟩ :=
      checkinPost_created_inv st uid pid d now hc
    rw [hp] at hp'
    injection hp' with hp'
    subst hp'
    rw [hu] at hu0
    injection hu0 with hu0
    subst hu0
    rw [checkinPost_created st uid pid d now place u hp h1 h2 hex hu]
    refine ⟨rfl, rfl, ?_, rfl⟩
    dsimp only
    rw [if_pos rfl]
  · intro hu h0 hl hacc
    obtain ⟨u', es, cs, hA, hB, hC, hD, hE, _, _⟩ :=
      runCheckins_effects uid reqs st u hu hacc
    refine ⟨u', es, hA, ?_, ?_, hD, hE⟩
    · rw [hB, h0]; simp
    · rw [hC, hl]; simp

/-- Claim C4 witness: two check-ins at the demo place on consecutive days,
both accepted; the balance reaches 20 and the instantiated theorem yields
the two matching ledger entries. -/
theorem c4_checkin_points_witness :
    (runCheckins 1 demoStore [⟨1, 15, 0⟩, ⟨1, 12, 86400000⟩]).users 1 =
      some { total := 20, rewards := [] } ∧
    ∃ u' es,
      (runCheckins 1 demoStore [⟨1, 15, 0⟩, ⟨1, 12, 86400000⟩]).users 1 =
        some u' ∧
      u'.total = 10 * ([⟨1, 15, 0⟩, ⟨1, 12, 86400000⟩] : List CheckinReq).length ∧
      ledgerFor (runCheckins 1 demoStore [⟨1, 15, 0⟩, ⟨1, 12, 86400000⟩]) 1 = es ∧
      es.length = ([⟨1, 15, 0⟩, ⟨1, 12, 86400000⟩] : List CheckinReq).length ∧
      ∀ e ∈ es, e.amount = 10 ∧ ∃ pid2 place2,
        demoStore.places pid2 = some place2 ∧
        e.reason = checkinReason place2.name :=
  ⟨by decide,
   (c4_checkin_points demoStore 1 1 15 0 demoUser demoPlace
      [⟨1, 15, 0⟩, ⟨1, 12, 86400000⟩]).2 rfl rfl rfl (by decide)⟩

end ARBackend
